import Mathlib

/-!
Verification development for the DigDog whitelist backend.

The repository holds three request-handler programs:
* `src/server.js`, first variant (identity mode): wallet-signature gated
  whitelist, `whitelist(wallet TEXT PRIMARY KEY, created_at)` table.
* `src/server.js`, second variant (identity mode): same table, fixed
  challenge message, `Math.max` clamp on `/spots`.
* the anonymous-mode server (hCaptcha gated), `invites(id INTEGER PRIMARY
  KEY AUTOINCREMENT, created_at)` table.

The embedding models each handler as a pure function of the request body,
the store state, and the outcomes of the two outbound network calls
(hCaptcha verification, Telegram invite creation), which are external.
The Ed25519 primitive `nacl.sign.detached.verify` is an external library
call and is a parameter `verify`; the byte-level decoding the handlers
perform around it (base58 wallet parsing, base64 signature decoding,
tweetnacl's signature-size check) is modelled concretely.
-/

set_option maxRecDepth 8192

/-- JavaScript truthiness of a possibly-absent string field:
`undefined` and the empty string are falsy. -/
def truthyOpt : Option String → Bool
| none => false
| some s => !s.isEmpty

/-- Index of a character in a list, `none` when absent. -/
def listIdx (c : Char) : List Char → Option Nat
| [] => none
| d :: ds => if d == c then some 0 else (listIdx c ds).map (· + 1)

/-- Map a decoder over all characters, failing if any character fails.
`bs58.decode` throws on the first character outside its alphabet. -/
def mapOpt (f : Char → Option Nat) : List Char → Option (List Nat)
| [] => some []
| c :: cs =>
  match f c, mapOpt f cs with
  | some v, some vs => some (v :: vs)
  | _, _ => none

/-- Number of leading occurrences of `c`. -/
def countLeading (c : Char) : List Char → Nat
| [] => 0
| d :: ds => if d == c then countLeading c ds + 1 else 0

/-- Big-endian digit list to a natural number. -/
def beNat (base : Nat) (ds : List Nat) : Nat :=
  ds.foldl (fun a d => a * base + d) 0

/-- Big-endian base-256 digits of `n`, most significant first, empty for 0.
`fuel` bounds the recursion and is always supplied large enough. -/
def natBytesBEAux : Nat → Nat → List Nat
| 0, _ => []
| fuel + 1, n => if n = 0 then [] else natBytesBEAux fuel (n / 256) ++ [n % 256]

/-- The bitcoin base58 alphabet used by the `bs58` package. -/
def b58Alphabet : List Char :=
  "123456789ABCDEFGHJKLMNPQRSTUVWXYZabcdefghijkmnopqrstuvwxyz".toList

/-- `bs58.decode`: base58 big-number decoding with one leading zero byte
per leading `'1'`; `none` (a thrown error) on a character outside the
alphabet. -/
def base58Decode (s : String) : Option (List Nat) :=
  let cs := s.toList
  match mapOpt (fun c => listIdx c b58Alphabet) cs with
  | none => none
  | some ds =>
    let n := beNat 58 ds
    some (List.replicate (countLeading '1' cs) 0 ++ natBytesBEAux (ds.length + 1) n)

/-- The standard base64 alphabet. -/
def b64Alphabet : List Char :=
  "ABCDEFGHIJKLMNOPQRSTUVWXYZabcdefghijklmnopqrstuvwxyz0123456789+/".toList

/-- Sextet value of one base64 character; Node also accepts the URL-safe
pair. Characters outside the alphabet (including padding) are ignored by
`Buffer.from(s, "base64")`, which never throws. -/
def b64Digit (c : Char) : Option Nat :=
  match listIdx c b64Alphabet with
  | some i => some i
  | none => if c == '-' then some 62 else if c == '_' then some 63 else none

/-- `Buffer.from(s, "base64")`: lenient base64 decoding — non-alphabet
characters are dropped, trailing bits short of a full byte are discarded. -/
def base64Decode (s : String) : List Nat :=
  let ds := s.toList.filterMap b64Digit
  let bits := 6 * ds.length
  let n := (beNat 64 ds) >>> (bits % 8)
  let len := bits / 8
  let bs := natBytesBEAux (len + 1) n
  List.replicate (len - bs.length) 0 ++ bs

/-- UTF-8 encoding of one unicode scalar value. -/
def utf8EncodeCharNat (c : Char) : List Nat :=
  let n := c.toNat
  if n < 0x80 then [n]
  else if n < 0x800 then
    [0xC0 ||| (n >>> 6), 0x80 ||| (n &&& 0x3F)]
  else if n < 0x10000 then
    [0xE0 ||| (n >>> 12), 0x80 ||| ((n >>> 6) &&& 0x3F), 0x80 ||| (n &&& 0x3F)]
  else
    [0xF0 ||| (n >>> 18), 0x80 ||| ((n >>> 12) &&& 0x3F),
     0x80 ||| ((n >>> 6) &&& 0x3F), 0x80 ||| (n &&& 0x3F)]

/-- UTF-8 bytes of a string (`new TextEncoder().encode(message)`). -/
def utf8Bytes (s : String) : List Nat :=
  (s.toList.map utf8EncodeCharNat).flatten

/-- `new PublicKey(wallet)` for a string input: base58-decode and require
exactly 32 bytes, otherwise throw (`none`). -/
def pubkeyOfString (w : String) : Option (List Nat) :=
  match base58Decode w with
  | none => none
  | some bs => if bs.length = 32 then some bs else none

/-- The outcome of `nacl.sign.detached.verify` on given message, signature
and public-key bytes; abstract parameter standing for Ed25519. -/
abbrev VerifyFn := List Nat → List Nat → List Nat → Bool

/-- `verifySignatureBase64` of the second variant (and `verifySignature`
of the first): parse the wallet, base64-decode the signature text, and run
`nacl.sign.detached.verify`; tweetnacl throws (`none`) when the signature
is not exactly 64 bytes. -/
def verifySignatureBase64 (verify : VerifyFn) (wallet message sigStr : String) :
    Option Bool :=
  match pubkeyOfString wallet with
  | none => none
  | some pk =>
    let sigBytes := base64Decode sigStr
    if sigBytes.length = 64 then some (verify (utf8Bytes message) sigBytes pk)
    else none

/-- The fixed challenge message of the second identity variant. -/
def joinMessage : String := "DIGDOG Early Access: verify wallet ownership"

/-- One row of the identity-mode `whitelist` table: wallet and
`created_at`. -/
abbrev Row := String × Nat

/-- `exists(wallet)`: `SELECT wallet FROM whitelist WHERE wallet=?`. -/
def existsW (w : String) (s : List Row) : Bool :=
  s.any (fun row => row.1 == w)

/-- `insertWallet(wallet)` at clock reading `now` (= `Date.now()`). -/
def insertWallet (w : String) (now : Nat) (s : List Row) : List Row :=
  s ++ [(w, now)]

/-- `deleteWallet(wallet)` / `DELETE FROM whitelist WHERE wallet=?`. -/
def deleteWallet (w : String) (s : List Row) : List Row :=
  s.filter (fun row => row.1 != w)

/-- Anonymous-mode store: the `invites` rows `(id, created_at)` together
with the sqlite `AUTOINCREMENT` sequence value (never reused, even after
deletes). -/
structure AnonState where
  rows : List (Nat × Nat)
  seq : Nat
deriving DecidableEq

/-- Largest `id` present in the `invites` table (0 when empty). -/
def maxId (rows : List (Nat × Nat)) : Nat :=
  rows.foldl (fun a p => max a p.1) 0

/-- `insertInvite()` at clock reading `now`: the new row takes the next
`AUTOINCREMENT` id. -/
def insertInvite (now : Nat) (s : AnonState) : AnonState :=
  ⟨s.rows ++ [(s.seq + 1, now)], s.seq + 1⟩

/-- `deleteLastInviteRow()`:
`DELETE FROM invites WHERE id = (SELECT id FROM invites ORDER BY id DESC LIMIT 1)`
— removes the row(s) carrying the largest id, nothing when empty. -/
def deleteLastInviteRow (s : AnonState) : AnonState :=
  match s.rows with
  | [] => s
  | _ => ⟨s.rows.filter (fun p => p.1 != maxId s.rows), s.seq⟩

/-- The `/join` request body in identity mode (each field possibly
absent). -/
structure JoinReq where
  wallet : Option String
  signatureBase64 : Option String
  signatureBase58 : Option String
deriving DecidableEq

/-- `const signature = signatureBase64 || signatureBase58`. -/
def sigField (r : JoinReq) : Option String :=
  if truthyOpt r.signatureBase64 then r.signatureBase64 else r.signatureBase58

/-- The `/join` request body in anonymous mode. -/
structure AnonReq where
  captchaToken : Option String
deriving DecidableEq

/-- Terminal outcome of a `/join` request, one constructor per distinct
response the handlers produce. -/
inductive JoinResp where
| missingInput
| invalidWallet
| badSignature
| duplicate
| full
| captchaFailed
| tgFailed
| serverError
| success (link : String) (remaining : Nat)
deriving DecidableEq

/-- HTTP status code of each outcome. -/
def JoinResp.status : JoinResp → Nat
| .missingInput => 400
| .invalidWallet => 400
| .badSignature => 401
| .duplicate => 409
| .full => 403
| .captchaFailed => 403
| .tgFailed => 500
| .serverError => 500
| .success _ _ => 200

/-- Outcome of the outbound Telegram `createChatInviteLink` call:
the fetch can fail, the body can fail to parse as JSON, or it parses to
a document with an `ok` flag and an optional `result.invite_link`. -/
inductive TgOutcome where
| netErr
| badJson
| data (ok : Bool) (link : Option String)
deriving DecidableEq

/-- `tgData.ok && tgData.result?.invite_link` truthiness. -/
def tgSuccess : Bool → Option String → Bool
| ok, some l => ok && !l.isEmpty
| _, none => false

/-- Outcome of the outbound hCaptcha `siteverify` call: the fetch can
fail, or it returns a body whose JSON parse yields `none` (malformed) or
a document whose `success` field is a boolean or absent. -/
inductive CapOutcome where
| netErr
| resp (parsed : Option (Option Bool))
deriving DecidableEq

/-- `verifyHCaptcha`: a thrown fetch error propagates (`none`); a
malformed body is replaced by `{}` (`resp.json().catch(() => ({}))`), so
its `success` field reads as absent. -/
def verifyHCaptchaResult : CapOutcome → Option (Option Bool)
| .netErr => none
| .resp none => some none
| .resp (some su) => some su

/-- The anonymous server's startup check exits the process when
`HCAPTCHA_SECRET` is absent (or empty, which is falsy): `true` means the
process refuses to serve any request. -/
def hcaptchaStartupExits (secret : Option String) : Bool :=
  !truthyOpt secret

/-- `/join` of the FIRST identity variant (src/server.js lines 59-124).
After the missing-field check and the `new PublicKey(wallet)` format
validation, line 76 evaluates
`verifySignature({ wallet, message, signatureBase64: signature })`; the
identifier `message` is not bound anywhere in that variant, so building
the argument object throws `ReferenceError: message is not defined`,
which the surrounding `catch` (line 120) converts into
`500 { error: "Server error" }`. No statement after line 76 is reachable,
so this handler never reads or writes the store. -/
def join1 (_maxSpots : Nat) (s : List Row) (r : JoinReq) : JoinResp × List Row :=
  if !(truthyOpt r.wallet && truthyOpt (sigField r)) then (.missingInput, s)
  else
    match pubkeyOfString (r.wallet.getD "") with
    | none => (.invalidWallet, s)
    | some _ => (.serverError, s)

/-- `/join` of the SECOND identity variant (src/server.js lines 200-275):
missing-field check, wallet format validation, base64 signature
verification (`401` on failure, `500` when tweetnacl throws on a
wrongly-sized signature), duplicate check (`409`), capacity check
(`403`), insert, Telegram call; on a parsed Telegram response without
`ok`/`invite_link` the insert is rolled back by wallet and `500` is
returned; a fetch error or non-JSON Telegram body throws past the
rollback into the outer catch (`500`, row kept). -/
def join2 (verify : VerifyFn) (maxSpots : Nat) (tg : TgOutcome) (now : Nat)
    (s : List Row) (r : JoinReq) : JoinResp × List Row :=
  if !(truthyOpt r.wallet && truthyOpt (sigField r)) then (.missingInput, s)
  else
    let w := r.wallet.getD ""
    let sigStr := (sigField r).getD ""
    match pubkeyOfString w with
    | none => (.invalidWallet, s)
    | some _ =>
      match verifySignatureBase64 verify w joinMessage sigStr with
      | none => (.serverError, s)
      | some false => (.badSignature, s)
      | some true =>
        if existsW w s then (.duplicate, s)
        else
          let current := s.length
          if current ≥ maxSpots then (.full, s)
          else
            let s1 := insertWallet w now s
            match tg with
            | .netErr => (.serverError, s1)
            | .badJson => (.serverError, s1)
            | .data ok link =>
              if tgSuccess ok link then
                (.success (link.getD "") (maxSpots - (current + 1)), s1)
              else (.tgFailed, deleteWallet w s1)

/-- `/join` of the anonymous-mode server (src/unnamed/part_000 lines
90-157): missing-token check, capacity check FIRST, hCaptcha
verification (fetch error throws to the outer catch → `500`; malformed
body or `success ≠ true` → `403`, fail closed), insert, Telegram call;
a parsed failure (including the `{}` substituted for a non-JSON body by
`.catch(() => ({}))`) rolls back the most recent row and returns `500`;
a fetch error throws past the rollback (`500`, row kept). -/
def anonJoin (maxSpots : Nat) (cap : CapOutcome) (tg : TgOutcome) (now : Nat)
    (s : AnonState) (r : AnonReq) : JoinResp × AnonState :=
  if !truthyOpt r.captchaToken then (.missingInput, s)
  else
    let current := s.rows.length
    if current ≥ maxSpots then (.full, s)
    else
      match verifyHCaptchaResult cap with
      | none => (.serverError, s)
      | some su =>
        if su == some true then
          let s1 := insertInvite now s
          match tg with
          | .netErr => (.serverError, s1)
          | .badJson => (.tgFailed, deleteLastInviteRow s1)
          | .data ok link =>
            if tgSuccess ok link then
              (.success (link.getD "") (maxSpots - (current + 1)), s1)
            else (.tgFailed, deleteLastInviteRow s1)
        else (.captchaFailed, s)

/-- The `/spots` response body. -/
structure SpotsResp where
  max : Nat
  used : Nat
  remaining : Int
deriving DecidableEq

/-- `/spots` of the first identity variant: `remaining` is the RAW
difference `MAX_SPOTS - count`, with no clamp at zero. -/
def spots1 (maxSpots : Nat) (s : List Row) : SpotsResp :=
  ⟨maxSpots, s.length, (maxSpots : Int) - (s.length : Int)⟩

/-- `/spots` of the second identity variant:
`Math.max(0, MAX_SPOTS - count)`. -/
def spots2 (maxSpots : Nat) (s : List Row) : SpotsResp :=
  ⟨maxSpots, s.length, max 0 ((maxSpots : Int) - (s.length : Int))⟩

/-- `/spots` of the anonymous-mode server:
`Math.max(0, MAX_SPOTS - used)`. -/
def spotsAnon (maxSpots : Nat) (s : AnonState) : SpotsResp :=
  ⟨maxSpots, s.rows.length, max 0 ((maxSpots : Int) - (s.rows.length : Int))⟩

/-! ### Helper lemmas -/

/-- The first identity variant never touches the store: every path
returns before any database statement runs. -/
theorem join1_state_eq (m : Nat) (s : List Row) (r : JoinReq) :
    (join1 m s r).2 = s := by
  unfold join1
  split
  · rfl
  · split <;> rfl

/-- A signature verification that ran (did not throw on wallet parsing)
had a successfully parsed public key. -/
theorem verifySig_pk (v : VerifyFn) (w msg sig : String) (b : Bool)
    (h : verifySignatureBase64 v w msg sig = some b) :
    ∃ pk, pubkeyOfString w = some pk := by
  unfold verifySignatureBase64 at h
  cases hpk : pubkeyOfString w with
  | none => rw [hpk] at h; exact absurd h (by simp)
  | some pk => exact ⟨pk, rfl⟩

theorem insertWallet_length (w : String) (now : Nat) (s : List Row) :
    (insertWallet w now s).length = s.length + 1 := by
  simp [insertWallet]

/-- Deleting the wallet just inserted restores the table exactly when the
wallet was not present before the insert. -/
theorem deleteWallet_insertWallet (w : String) (now : Nat) (s : List Row)
    (h : existsW w s = false) :
    deleteWallet w (insertWallet w now s) = s := by
  unfold deleteWallet insertWallet
  rw [List.filter_append]
  have h2 : ∀ row ∈ s, (row.1 != w) = true := by
    intro row hrow
    unfold existsW at h
    simp only [bne_iff_ne, ne_eq]
    intro hcontra
    have hany : s.any (fun row => row.1 == w) = true :=
      List.any_eq_true.mpr ⟨row, hrow, by simp [hcontra]⟩
    exact absurd hany (by simp [h])
  rw [List.filter_eq_self.mpr h2]
  simp

theorem deleteWallet_length_le (w : String) (s : List Row) :
    (deleteWallet w s).length ≤ s.length := by
  simpa [deleteWallet] using List.length_filter_le _ s

theorem insertInvite_rows_length (now : Nat) (s : AnonState) :
    (insertInvite now s).rows.length = s.rows.length + 1 := by
  simp [insertInvite]

theorem deleteLast_rows_length_le (s : AnonState) :
    (deleteLastInviteRow s).rows.length ≤ s.rows.length := by
  unfold deleteLastInviteRow
  split
  · exact Nat.le_refl _
  · exact List.length_filter_le _ _

theorem maxId_append_single (l : List (Nat × Nat)) (x : Nat × Nat) :
    maxId (l ++ [x]) = max (maxId l) x.1 := by
  simp [maxId, List.foldl_append]

theorem maxId_le_of_bounded (l : List (Nat × Nat)) (n : Nat)
    (h : ∀ p ∈ l, p.1 ≤ n) : maxId l ≤ n := by
  unfold maxId
  have aux : ∀ (l' : List (Nat × Nat)) (a : Nat), a ≤ n →
      (∀ p ∈ l', p.1 ≤ n) → l'.foldl (fun a p => max a p.1) a ≤ n := by
    intro l'
    induction l' with
    | nil => intro a ha _; simpa using ha
    | cons p ps ih =>
      intro a ha hb
      simp only [List.foldl_cons]
      exact ih _ (max_le ha (hb p (by simp))) (fun q hq => hb q (by simp [hq]))
  exact aux l 0 (Nat.zero_le n) h

/-- In a store reachable by the handler all ids are at most the
`AUTOINCREMENT` sequence value; under that freshness condition, deleting
the most recent row right after an insert restores the previous rows
exactly (the new row carries the strictly largest id). -/
theorem deleteLast_insertInvite (now : Nat) (s : AnonState)
    (h : ∀ p ∈ s.rows, p.1 ≤ s.seq) :
    deleteLastInviteRow (insertInvite now s) = ⟨s.rows, s.seq + 1⟩ := by
  unfold deleteLastInviteRow insertInvite
  have hmax : maxId (s.rows ++ [(s.seq + 1, now)]) = s.seq + 1 := by
    rw [maxId_append_single]
    have := maxId_le_of_bounded s.rows s.seq h
    simp
    omega
  split
  next heq =>
    exact absurd heq (by simp)
  next =>
    simp only [hmax, List.filter_append]
    have h2 : ∀ p ∈ s.rows, (p.1 != s.seq + 1) = true := by
      intro p hp
      have := h p hp
      simp
      omega
    rw [List.filter_eq_self.mpr h2]
    simp


/-- Exhaustive shape analysis of the second identity variant: either the
request terminates before the insert and the store is untouched, or the
pre-insert conditions held (free capacity, wallet not yet recorded) and
the outcome is one of: external fault after insert (row kept), Telegram
issuance failure (row inserted then deleted by wallet), or success (row
kept). -/
theorem join2_master (v : VerifyFn) (m : Nat) (tg : TgOutcome) (now : Nat)
    (s : List Row) (r : JoinReq) :
    (join2 v m tg now s r).2 = s ∨
    (s.length < m ∧ existsW (r.wallet.getD "") s = false ∧
      (join2 v m tg now s r =
         (.serverError, insertWallet (r.wallet.getD "") now s) ∨
       join2 v m tg now s r =
         (.tgFailed, deleteWallet (r.wallet.getD "")
           (insertWallet (r.wallet.getD "") now s)) ∨
       ∃ l, join2 v m tg now s r =
         (.success l (m - (s.length + 1)), insertWallet (r.wallet.getD "") now s))) := by
  cases hb : truthyOpt r.wallet && truthyOpt (sigField r) with
  | false => left; simp [join2, hb]
  | true =>
    cases hpk : pubkeyOfString (r.wallet.getD "") with
    | none => left; simp [join2, hb, hpk]
    | some pk =>
      cases hv : verifySignatureBase64 v (r.wallet.getD "") joinMessage
          ((sigField r).getD "") with
      | none => left; simp [join2, hb, hpk, hv]
      | some bv =>
        cases bv with
        | false => left; simp [join2, hb, hpk, hv]
        | true =>
          cases hex : existsW (r.wallet.getD "") s with
          | true => left; simp [join2, hb, hpk, hv, hex]
          | false =>
            by_cases hcap : s.length ≥ m
            · left; simp [join2, hb, hpk, hv, hex, hcap]
            · right
              refine ⟨by omega, rfl, ?_⟩
              cases tg with
              | netErr => left; simp [join2, hb, hpk, hv, hex, hcap]
              | badJson => left; simp [join2, hb, hpk, hv, hex, hcap]
              | data ok link =>
                cases hts : tgSuccess ok link with
                | true =>
                  right; right
                  exact ⟨link.getD "", by
                    simp [join2, hb, hpk, hv, hex, hcap, hts]⟩
                | false =>
                  right; left
                  simp [join2, hb, hpk, hv, hex, hcap, hts]

/-- Exhaustive shape analysis of the anonymous-mode handler: either the
request terminates before the insert and the store is untouched, or the
pre-insert conditions held (token present, free capacity, hCaptcha
`success == true`) and the outcome is one of: external fault after
insert (row kept), Telegram issuance failure (row inserted then the
most-recent row deleted), or success (row kept). -/
theorem anonJoin_master (m : Nat) (cap : CapOutcome) (tg : TgOutcome)
    (now : Nat) (s : AnonState) (r : AnonReq) :
    (anonJoin m cap tg now s r).2 = s ∨
    (truthyOpt r.captchaToken = true ∧ s.rows.length < m ∧
      verifyHCaptchaResult cap = some (some true) ∧
      (anonJoin m cap tg now s r = (.serverError, insertInvite now s) ∨
       anonJoin m cap tg now s r =
         (.tgFailed, deleteLastInviteRow (insertInvite now s)) ∨
       ∃ l, anonJoin m cap tg now s r =
         (.success l (m - (s.rows.length + 1)), insertInvite now s))) := by
  cases hb : truthyOpt r.captchaToken with
  | false => left; simp [anonJoin, hb]
  | true =>
    by_cases hcap : s.rows.length ≥ m
    · left; simp [anonJoin, hb, hcap]
    · cases hc : verifyHCaptchaResult cap with
      | none => left; simp [anonJoin, hb, hcap, hc]
      | some su =>
        cases hsu : su == some true with
        | false => left; simp [anonJoin, hb, hcap, hc, hsu]
        | true =>
          right
          have hsu2 : su = some true := by simpa using hsu
          refine ⟨rfl, by omega, by rw [hsu2], ?_⟩
          cases tg with
          | netErr => left; simp [anonJoin, hb, hcap, hc, hsu]
          | badJson => right; left; simp [anonJoin, hb, hcap, hc, hsu]
          | data ok link =>
            cases hts : tgSuccess ok link with
            | true =>
              right; right
              exact ⟨link.getD "", by
                simp [anonJoin, hb, hcap, hc, hsu, hts]⟩
            | false =>
              right; left
              simp [anonJoin, hb, hcap, hc, hsu, hts]

/-! ### Concrete fixtures used by witnesses and counterexamples -/

/-- The base58 string of 32 `'1'` characters: decodes to 32 zero bytes,
a structurally valid public key (the system-program address format). -/
def wallet0 : String := "11111111111111111111111111111111"

/-- Canonical base64 text of 64 zero bytes (86 `'A'`s and padding). -/
def sigB64 : String :=
  "AAAAAAAAAAAAAAAAAAAAAAAAAAAAAAAAAAAAAAAAAAAAAAAAAAAAAAAAAAAAAAAAAAAAAAAAAAAAAAAAAAAAAA=="

/-- Base58 text of 64 zero bytes: 64 `'1'` characters. Its BASE64
reading is 48 bytes of other content. -/
def sigB58 : String :=
  "1111111111111111111111111111111111111111111111111111111111111111"

/-- Oracle standing for an Ed25519 universe in which every check passes. -/
def vTrue : VerifyFn := fun _ _ _ => true

/-- Oracle standing for an Ed25519 universe in which every check fails. -/
def vFalse : VerifyFn := fun _ _ _ => false

/-- Oracle accepting exactly the 64-zero-byte signature (the base58
reading of `sigB58`), rejecting all other byte strings. -/
def vZeros : VerifyFn := fun _ sg _ => sg == List.replicate 64 0

/-- A successful Telegram invite-creation response. -/
def tgOK : TgOutcome := .data true (some "https://t.me/+invite")

/-- A parsed Telegram failure (`ok` false, no invite link). -/
def tgBad : TgOutcome := .data false none

/-- Identity request carrying `wallet0` and the base64 signature field. -/
def reqId0 : JoinReq := ⟨some wallet0, some sigB64, none⟩

/-- Identity request carrying `wallet0` and only the base58 field. -/
def reqId58 : JoinReq := ⟨some wallet0, none, some sigB58⟩

/-- Anonymous request with a captcha token. -/
def anonTok : AnonReq := ⟨some "tok"⟩

/-- Anonymous request without a captcha token. -/
def anonNoTok : AnonReq := ⟨none⟩

/-! ### Directed run lemmas -/

theorem join2_badSignature (v : VerifyFn) (m : Nat) (tg : TgOutcome)
    (now : Nat) (s : List Row) (r : JoinReq)
    (hb1 : truthyOpt r.wallet = true) (hb2 : truthyOpt (sigField r) = true)
    (hv : verifySignatureBase64 v (r.wallet.getD "") joinMessage
      ((sigField r).getD "") = some false) :
    join2 v m tg now s r = (.badSignature, s) := by
  obtain ⟨pk, hpk⟩ := verifySig_pk v _ _ _ _ hv
  simp [join2, hb1, hb2, hpk, hv]

theorem join2_sigThrow (v : VerifyFn) (m : Nat) (tg : TgOutcome)
    (now : Nat) (s : List Row) (r : JoinReq) (pk : List Nat)
    (hb1 : truthyOpt r.wallet = true) (hb2 : truthyOpt (sigField r) = true)
    (hpk : pubkeyOfString (r.wallet.getD "") = some pk)
    (hv : verifySignatureBase64 v (r.wallet.getD "") joinMessage
      ((sigField r).getD "") = none) :
    join2 v m tg now s r = (.serverError, s) := by
  simp [join2, hb1, hb2, hpk, hv]

theorem join2_full_of_capacity (v : VerifyFn) (m : Nat) (tg : TgOutcome)
    (now : Nat) (s : List Row) (r : JoinReq)
    (hb1 : truthyOpt r.wallet = true) (hb2 : truthyOpt (sigField r) = true)
    (hv : verifySignatureBase64 v (r.wallet.getD "") joinMessage
      ((sigField r).getD "") = some true)
    (hex : existsW (r.wallet.getD "") s = false)
    (h : m ≤ s.length) :
    join2 v m tg now s r = (.full, s) := by
  obtain ⟨pk, hpk⟩ := verifySig_pk v _ _ _ _ hv
  simp [join2, hb1, hb2, hpk, hv, hex, ge_iff_le, h]

theorem join2_rollback_run (v : VerifyFn) (m : Nat) (ok : Bool)
    (link : Option String) (now : Nat) (s : List Row) (r : JoinReq)
    (hb1 : truthyOpt r.wallet = true) (hb2 : truthyOpt (sigField r) = true)
    (hv : verifySignatureBase64 v (r.wallet.getD "") joinMessage
      ((sigField r).getD "") = some true)
    (hex : existsW (r.wallet.getD "") s = false)
    (hlen : s.length < m) (hts : tgSuccess ok link = false) :
    join2 v m (.data ok link) now s r = (.tgFailed, s) := by
  obtain ⟨pk, hpk⟩ := verifySig_pk v _ _ _ _ hv
  have hnc : ¬ s.length ≥ m := by omega
  rw [show (JoinResp.tgFailed, s) =
      (JoinResp.tgFailed, deleteWallet (r.wallet.getD "")
        (insertWallet (r.wallet.getD "") now s)) by
    rw [deleteWallet_insertWallet _ _ _ hex]]
  simp [join2, hb1, hb2, hpk, hv, hex, hnc, hts]

theorem anonJoin_full_of_capacity (m : Nat) (cap : CapOutcome)
    (tg : TgOutcome) (now : Nat) (s : AnonState) (r : AnonReq)
    (htok : truthyOpt r.captchaToken = true) (h : m ≤ s.rows.length) :
    anonJoin m cap tg now s r = (.full, s) := by
  simp [anonJoin, htok, ge_iff_le, h]

theorem anonJoin_rollback_run (m : Nat) (cap : CapOutcome) (ok : Bool)
    (link : Option String) (now : Nat) (s : AnonState) (r : AnonReq)
    (htok : truthyOpt r.captchaToken = true)
    (hlen : s.rows.length < m)
    (hcapOk : verifyHCaptchaResult cap = some (some true))
    (hfresh : ∀ p ∈ s.rows, p.1 ≤ s.seq)
    (hts : tgSuccess ok link = false) :
    anonJoin m cap (.data ok link) now s r = (.tgFailed, ⟨s.rows, s.seq + 1⟩) := by
  have hnc : ¬ s.rows.length ≥ m := by omega
  rw [show ((JoinResp.tgFailed, (⟨s.rows, s.seq + 1⟩ : AnonState)) :
      JoinResp × AnonState) =
      (JoinResp.tgFailed, deleteLastInviteRow (insertInvite now s)) by
    rw [deleteLast_insertInvite now s hfresh]]
  simp [anonJoin, htok, hnc, hcapOk, hts]

/-! ### Claim theorems -/

/-- C1: for every `/join` request executed from a state whose admission
record count is at most `MAX_SPOTS`, the resulting state's record count
is still at most `MAX_SPOTS`, in all three handlers (both identity
variants and the anonymous server): the insert only runs when the
pre-insert count is strictly below the capacity. -/
theorem c1_capacity_invariant :
    (∀ m s r, s.length ≤ m → ((join1 m s r).2).length ≤ m) ∧
    (∀ v m tg now s r, s.length ≤ m → ((join2 v m tg now s r).2).length ≤ m) ∧
    (∀ m cap tg now s r, s.rows.length ≤ m →
      ((anonJoin m cap tg now s r).2).rows.length ≤ m) := by
  refine ⟨?_, ?_, ?_⟩
  · intro m s r h
    rw [join1_state_eq]
    exact h
  · intro v m tg now s r h
    rcases join2_master v m tg now s r with heq | ⟨hlen, hex, hc | hc | ⟨l, hc⟩⟩
    · rw [heq]; exact h
    · rw [hc]; simpa [insertWallet_length] using hlen
    · rw [hc]
      have h1 := deleteWallet_length_le (r.wallet.getD "")
        (insertWallet (r.wallet.getD "") now s)
      rw [insertWallet_length] at h1
      simpa using Nat.le_trans h1 hlen
    · rw [hc]; simpa [insertWallet_length] using hlen
  · intro m cap tg now s r h
    rcases anonJoin_master m cap tg now s r with heq | ⟨_, hlen, _, hc | hc | ⟨l, hc⟩⟩
    · rw [heq]; exact h
    · rw [hc]; simpa [insertInvite_rows_length] using hlen
    · rw [hc]
      have h1 := deleteLast_rows_length_le (insertInvite now s)
      rw [insertInvite_rows_length] at h1
      simpa using Nat.le_trans h1 hlen
    · rw [hc]; simpa [insertInvite_rows_length] using hlen

theorem c1_capacity_invariant_witness :
    ((join1 5 [] reqId0).2).length ≤ 5 ∧
    ((join2 vTrue 5 tgOK 0 [] reqId0).2).length ≤ 5 ∧
    ((anonJoin 5 (.resp (some (some true))) tgOK 0 ⟨[], 0⟩ anonTok).2).rows.length ≤ 5 :=
  ⟨c1_capacity_invariant.1 5 [] reqId0 (by decide),
   c1_capacity_invariant.2.1 vTrue 5 tgOK 0 [] reqId0 (by decide),
   c1_capacity_invariant.2.2 5 (.resp (some (some true))) tgOK 0 ⟨[], 0⟩ anonTok
     (by decide)⟩

/-- C3: when the Telegram invite-creation call yields a parsed response
that is not a success (`ok` false or `invite_link` missing/empty), the
handler deletes the record it inserted and answers with the
upstream-failure condition; in identity mode (second variant) the whole
table is restored exactly by deleting the request's wallet, in anonymous
mode the rows are restored by deleting the most recently inserted row
(the freshness hypothesis `∀ p ∈ rows, id ≤ seq` holds of every store
the handler itself builds, because sqlite `AUTOINCREMENT` ids never
exceed the sequence counter). -/
theorem c3_rollback :
    (∀ v m ok link now s r,
      truthyOpt r.wallet = true → truthyOpt (sigField r) = true →
      verifySignatureBase64 v (r.wallet.getD "") joinMessage
        ((sigField r).getD "") = some true →
      existsW (r.wallet.getD "") s = false →
      s.length < m → tgSuccess ok link = false →
      join2 v m (.data ok link) now s r = (.tgFailed, s)) ∧
    (∀ m cap ok link now s r,
      truthyOpt r.captchaToken = true → s.rows.length < m →
      verifyHCaptchaResult cap = some (some true) →
      (∀ p ∈ s.rows, p.1 ≤ s.seq) → tgSuccess ok link = false →
      anonJoin m cap (.data ok link) now s r =
        (.tgFailed, ⟨s.rows, s.seq + 1⟩)) :=
  ⟨fun v m ok link now s r hb1 hb2 hv hex hlen hts =>
    join2_rollback_run v m ok link now s r hb1 hb2 hv hex hlen hts,
   fun m cap ok link now s r htok hlen hcapOk hfresh hts =>
    anonJoin_rollback_run m cap ok link now s r htok hlen hcapOk hfresh hts⟩

theorem c3_rollback_witness :
    join2 vTrue 3 (.data false none) 9 [] reqId0 = (.tgFailed, []) ∧
    anonJoin 3 (.resp (some (some true))) (.data false none) 9
      ⟨[(2, 5)], 2⟩ anonTok = (.tgFailed, ⟨[(2, 5)], 3⟩) :=
  ⟨c3_rollback.1 vTrue 3 false none 9 [] reqId0 (by decide) (by decide)
    (by decide) (by decide) (by decide) (by decide),
   c3_rollback.2 3 (.resp (some (some true))) false none 9 ⟨[(2, 5)], 2⟩ anonTok
    (by decide) (by decide) (by decide) (by decide) (by decide)⟩

/-- Helper for C6: any hCaptcha outcome other than a parsed body whose
`success` field is the boolean `true` leaves the store untouched and
never produces the success response. -/
theorem anonJoin_capFail (m : Nat) (cap : CapOutcome) (tg : TgOutcome)
    (now : Nat) (s : AnonState) (r : AnonReq)
    (h : verifyHCaptchaResult cap ≠ some (some true)) :
    (anonJoin m cap tg now s r).2 = s ∧
    ((anonJoin m cap tg now s r).1).status ≠ 200 := by
  cases hb : truthyOpt r.captchaToken with
  | false => constructor <;> simp [anonJoin, hb, JoinResp.status]
  | true =>
    by_cases hcap : s.rows.length ≥ m
    · constructor <;> simp [anonJoin, hb, hcap, JoinResp.status]
    · cases hc : verifyHCaptchaResult cap with
      | none => constructor <;> simp [anonJoin, hb, hcap, hc, JoinResp.status]
      | some su =>
        have hne : su ≠ some true := by
          intro he
          exact h (by rw [hc, he])
        have hsu : (su == some true) = false := by simpa using hne
        constructor <;> simp [anonJoin, hb, hcap, hc, hsu, JoinResp.status]

/-- C6: the anonymous handler fails closed — a fetch error during the
hCaptcha call, a malformed (non-JSON) verification body, or any parsed
body whose `success` field is not the boolean `true` leaves the store
untouched and is never answered as a success; and the process refuses to
start at all when `HCAPTCHA_SECRET` is missing (or empty). -/
theorem c6_fails_closed :
    (∀ m cap tg now s r, verifyHCaptchaResult cap ≠ some (some true) →
      (anonJoin m cap tg now s r).2 = s ∧
      ((anonJoin m cap tg now s r).1).status ≠ 200) ∧
    hcaptchaStartupExits none = true ∧ hcaptchaStartupExits (some "") = true :=
  ⟨fun m cap tg now s r h => anonJoin_capFail m cap tg now s r h,
   by decide, by decide⟩

theorem c6_fails_closed_witness :
    ((anonJoin 2 .netErr tgOK 0 ⟨[], 0⟩ anonTok).2 = ⟨[], 0⟩ ∧
      ((anonJoin 2 .netErr tgOK 0 ⟨[], 0⟩ anonTok).1).status ≠ 200) ∧
    ((anonJoin 2 (.resp none) tgOK 0 ⟨[], 0⟩ anonTok).2 = ⟨[], 0⟩ ∧
      ((anonJoin 2 (.resp none) tgOK 0 ⟨[], 0⟩ anonTok).1).status ≠ 200) ∧
    ((anonJoin 2 (.resp (some (some false))) tgOK 0 ⟨[], 0⟩ anonTok).2 = ⟨[], 0⟩ ∧
      ((anonJoin 2 (.resp (some (some false))) tgOK 0 ⟨[], 0⟩ anonTok).1).status ≠ 200) :=
  ⟨c6_fails_closed.1 2 .netErr tgOK 0 ⟨[], 0⟩ anonTok (by decide),
   c6_fails_closed.1 2 (.resp none) tgOK 0 ⟨[], 0⟩ anonTok (by decide),
   c6_fails_closed.1 2 (.resp (some (some false))) tgOK 0 ⟨[], 0⟩ anonTok (by decide)⟩

/-- C10: every `/join` request that terminates with a missing-input
(400), invalid-identity (400), failed-verification (401/403), duplicate
(409) or capacity-exceeded (403) condition performs no write: the table
contents after the request equal the contents before, in all three
handlers. -/
theorem c10_no_write_on_reject :
    (∀ m s r,
      ((join1 m s r).1.status = 400 ∨ (join1 m s r).1.status = 401 ∨
       (join1 m s r).1.status = 403 ∨ (join1 m s r).1.status = 409) →
      (join1 m s r).2 = s) ∧
    (∀ v m tg now s r,
      ((join2 v m tg now s r).1.status = 400 ∨
       (join2 v m tg now s r).1.status = 401 ∨
       (join2 v m tg now s r).1.status = 403 ∨
       (join2 v m tg now s r).1.status = 409) →
      (join2 v m tg now s r).2 = s) ∧
    (∀ m cap tg now s r,
      ((anonJoin m cap tg now s r).1.status = 400 ∨
       (anonJoin m cap tg now s r).1.status = 401 ∨
       (anonJoin m cap tg now s r).1.status = 403 ∨
       (anonJoin m cap tg now s r).1.status = 409) →
      (anonJoin m cap tg now s r).2 = s) := by
  refine ⟨?_, ?_, ?_⟩
  · intro m s r _
    exact join1_state_eq m s r
  · intro v m tg now s r hst
    rcases join2_master v m tg now s r with heq | ⟨_, _, hc | hc | ⟨l, hc⟩⟩
    · exact heq
    · rw [hc] at hst; simp [JoinResp.status] at hst
    · rw [hc] at hst; simp [JoinResp.status] at hst
    · rw [hc] at hst; simp [JoinResp.status] at hst
  · intro m cap tg now s r hst
    rcases anonJoin_master m cap tg now s r with heq | ⟨_, _, _, hc | hc | ⟨l, hc⟩⟩
    · exact heq
    · rw [hc] at hst; simp [JoinResp.status] at hst
    · rw [hc] at hst; simp [JoinResp.status] at hst
    · rw [hc] at hst; simp [JoinResp.status] at hst

theorem c10_no_write_on_reject_witness :
    (join1 1 [] ⟨none, none, none⟩).2 = [] ∧
    (join2 vTrue 1 tgOK 0 [(wallet0, 3)] reqId0).2 = [(wallet0, 3)] ∧
    (anonJoin 2 (.resp none) tgOK 0 ⟨[], 0⟩ anonTok).2 = ⟨[], 0⟩ :=
  ⟨c10_no_write_on_reject.1 1 [] ⟨none, none, none⟩ (by decide),
   c10_no_write_on_reject.2.1 vTrue 1 tgOK 0 [(wallet0, 3)] reqId0 (by decide),
   c10_no_write_on_reject.2.2 2 (.resp none) tgOK 0 ⟨[], 0⟩ anonTok (by decide)⟩

/-- C2 counterexample: the claim says every `/join` arriving at a full
store terminates with the "full" condition before any proof
verification, in both modes. In the second identity variant a full store
(count = MAX_SPOTS = 1) still runs signature verification first: with a
failing signature the request is answered 401 (bad signature), not the
"full" condition. -/
theorem c2_counterexample :
    ([(("w", 0) : Row)]).length = 1 ∧
    join2 vFalse 1 tgOK 0 [("w", 0)] reqId0 = (.badSignature, [("w", 0)]) ∧
    JoinResp.badSignature ≠ JoinResp.full := by decide

/-- C2 amended: only the anonymous handler runs CapacityCheck first —
any tokened request at a full store is answered "full" with no further
work (the response and state do not depend on the captcha or Telegram
outcomes). In the identity variants the order is proof verification →
duplicate check → capacity check: a full store answers "full" only for
requests that pass signature verification and are not duplicates, and a
failing signature is answered 401 regardless of capacity. -/
theorem c2_order_amended :
    (∀ m cap cap2 tg tg2 now now2 (s : AnonState) r,
      truthyOpt r.captchaToken = true → m ≤ s.rows.length →
      anonJoin m cap tg now s r = (.full, s) ∧
      anonJoin m cap2 tg2 now2 s r = anonJoin m cap tg now s r) ∧
    (∀ v m tg now s r,
      truthyOpt r.wallet = true → truthyOpt (sigField r) = true →
      verifySignatureBase64 v (r.wallet.getD "") joinMessage
        ((sigField r).getD "") = some true →
      existsW (r.wallet.getD "") s = false → m ≤ s.length →
      join2 v m tg now s r = (.full, s)) ∧
    (∀ v m tg now s r,
      truthyOpt r.wallet = true → truthyOpt (sigField r) = true →
      verifySignatureBase64 v (r.wallet.getD "") joinMessage
        ((sigField r).getD "") = some false →
      join2 v m tg now s r = (.badSignature, s)) := by
  refine ⟨?_, ?_, ?_⟩
  · intro m cap cap2 tg tg2 now now2 s r htok h
    have h1 := anonJoin_full_of_capacity m cap tg now s r htok h
    have h2 := anonJoin_full_of_capacity m cap2 tg2 now2 s r htok h
    exact ⟨h1, by rw [h1, h2]⟩
  · intro v m tg now s r hb1 hb2 hv hex h
    exact join2_full_of_capacity v m tg now s r hb1 hb2 hv hex h
  · intro v m tg now s r hb1 hb2 hv
    exact join2_badSignature v m tg now s r hb1 hb2 hv

theorem c2_order_amended_witness :
    (anonJoin 1 .netErr tgBad 0 ⟨[(1, 0)], 1⟩ anonTok = (.full, ⟨[(1, 0)], 1⟩) ∧
      anonJoin 1 (.resp (some (some true))) tgOK 3 ⟨[(1, 0)], 1⟩ anonTok =
        anonJoin 1 .netErr tgBad 0 ⟨[(1, 0)], 1⟩ anonTok) ∧
    join2 vTrue 1 tgOK 0 [("w", 0)] reqId0 = (.full, [("w", 0)]) ∧
    join2 vFalse 9 tgOK 0 [] reqId0 = (.badSignature, []) :=
  ⟨c2_order_amended.1 1 .netErr (.resp (some (some true))) tgBad tgOK 0 3
    ⟨[(1, 0)], 1⟩ anonTok (by decide) (by decide),
   c2_order_amended.2.1 vTrue 1 tgOK 0 [("w", 0)] reqId0 (by decide) (by decide)
    (by decide) (by decide) (by decide),
   c2_order_amended.2.2 vFalse 9 tgOK 0 [] reqId0 (by decide) (by decide)
    (by decide)⟩

/-- A wallet absent per the `exists` query is not among the mapped
wallet column values. -/
theorem existsW_false_not_mem (w : String) (s : List Row)
    (h : existsW w s = false) : w ∉ s.map Prod.fst := by
  intro hmem
  rcases List.mem_map.mp hmem with ⟨row, hrow, heq⟩
  have hany : s.any (fun row => row.1 == w) = true :=
    List.any_eq_true.mpr ⟨row, hrow, by simp [heq]⟩
  unfold existsW at h
  exact absurd hany (by simp [h])

/-- The wallet column stays duplicate-free across any request of the
second identity variant: the handler inserts only wallets that failed
the `exists` check, matching the `PRIMARY KEY` constraint. -/
theorem join2_nodup (v : VerifyFn) (m : Nat) (tg : TgOutcome) (now : Nat)
    (s : List Row) (r : JoinReq) (h : (s.map Prod.fst).Nodup) :
    (((join2 v m tg now s r).2).map Prod.fst).Nodup := by
  have hins : ∀ w, existsW w s = false →
      ((insertWallet w now s).map Prod.fst).Nodup := by
    intro w hex
    have hnm := existsW_false_not_mem w s hex
    simp only [insertWallet, List.map_append, List.map_cons, List.map_nil]
    rw [List.nodup_append]
    exact ⟨h, List.nodup_singleton _, fun x hx hx2 => by
      simp at hx2
      subst hx2
      exact hnm hx⟩
  rcases join2_master v m tg now s r with heq | ⟨_, hex, hc | hc | ⟨l, hc⟩⟩
  · rw [heq]; exact h
  · rw [hc]; exact hins _ hex
  · rw [hc]
    exact List.Nodup.sublist
      (List.Sublist.map Prod.fst (List.filter_sublist _)) (hins _ hex)
  · rw [hc]; exact hins _ hex

/-- C4 (code bug in the FIRST identity variant): in the second identity
variant, submitting the same valid (wallet, signature) pair twice from
an empty store with capacity 2 and a working invite issuer makes the
first request succeed (row inserted), the second terminate with the
conflict condition (409) leaving the store unchanged, the count having
grown by exactly one; and the wallet column stays duplicate-free across
any request, matching the `PRIMARY KEY` constraint. The first identity
variant, however, answers the very same first request with
`500 Server error` and inserts nothing, because its line 76 reads the
unbound identifier `message` (a `ReferenceError` caught at line 120), so
the claimed two-request behaviour is unreachable there. -/
theorem c4_duplicate_detection :
    (join2 vTrue 2 tgOK 7 [] reqId0 =
      (.success "https://t.me/+invite" 1, [(wallet0, 7)]) ∧
     join2 vTrue 2 tgOK 8 [(wallet0, 7)] reqId0 = (.duplicate, [(wallet0, 7)]) ∧
     ([(wallet0, 7)] : List Row).length = 1) ∧
    (∀ v m tg now s r, (s.map Prod.fst).Nodup →
      (((join2 v m tg now s r).2).map Prod.fst).Nodup) ∧
    join1 2 [] reqId0 = (.serverError, []) :=
  ⟨by decide,
   fun v m tg now s r h => join2_nodup v m tg now s r h,
   by decide⟩

theorem c4_duplicate_detection_witness :
    (((join2 vTrue 2 tgOK 7 [] reqId0).2).map Prod.fst).Nodup :=
  c4_duplicate_detection.2.1 vTrue 2 tgOK 7 [] reqId0 (by decide)

/-- C5 counterexample: the claim quantifies over ALL `/join` requests at
a full store (count = MAX_SPOTS) and asserts the response is the
capacity-exceeded condition (403). In the anonymous handler a request
with no captcha token at a full store (count = 1 = MAX_SPOTS) is
answered 400 (missing input), not 403. -/
theorem c5_counterexample :
    (⟨[(1, 0)], 1⟩ : AnonState).rows.length = 1 ∧
    anonJoin 1 (.resp (some (some true))) tgOK 0 ⟨[(1, 0)], 1⟩ anonNoTok =
      (.missingInput, ⟨[(1, 0)], 1⟩) ∧
    JoinResp.missingInput.status = 400 ∧ JoinResp.full.status = 403 := by decide

/-- C5 amended: once capacity is reached (count = MAX_SPOTS) no `/join`
request changes the store, in any of the three handlers (the first
identity variant never writes at all); and the 403 "Whitelist is full."
response is produced exactly by the requests that reach the capacity
check — in the anonymous handler any request with a token, in the second
identity variant any request passing validation, signature verification
and the duplicate check. Requests rejected earlier keep their earlier
condition (400/401/409) even at capacity. -/
theorem c5_capacity_amended :
    (∀ m s r, (join1 m s r).2 = s) ∧
    (∀ v m tg now (s : List Row) r, s.length = m →
      (join2 v m tg now s r).2 = s) ∧
    (∀ m cap tg now (s : AnonState) r, s.rows.length = m →
      (anonJoin m cap tg now s r).2 = s) ∧
    (∀ m cap tg now (s : AnonState) r,
      truthyOpt r.captchaToken = true → m ≤ s.rows.length →
      anonJoin m cap tg now s r = (.full, s)) ∧
    (∀ v m tg now s r,
      truthyOpt r.wallet = true → truthyOpt (sigField r) = true →
      verifySignatureBase64 v (r.wallet.getD "") joinMessage
        ((sigField r).getD "") = some true →
      existsW (r.wallet.getD "") s = false → m ≤ s.length →
      join2 v m tg now s r = (.full, s)) := by
  refine ⟨join1_state_eq, ?_, ?_, ?_, ?_⟩
  · intro v m tg now s r h
    rcases join2_master v m tg now s r with heq | ⟨hlen, _, _⟩
    · exact heq
    · omega
  · intro m cap tg now s r h
    rcases anonJoin_master m cap tg now s r with heq | ⟨_, hlen, _, _⟩
    · exact heq
    · omega
  · intro m cap tg now s r htok h
    exact anonJoin_full_of_capacity m cap tg now s r htok h
  · intro v m tg now s r hb1 hb2 hv hex h
    exact join2_full_of_capacity v m tg now s r hb1 hb2 hv hex h

theorem c5_capacity_amended_witness :
    (join1 1 [("w", 0)] reqId0).2 = [("w", 0)] ∧
    (join2 vTrue 1 tgOK 0 [("w", 0)] reqId0).2 = [("w", 0)] ∧
    (anonJoin 1 (.resp (some (some true))) tgOK 0 ⟨[(1, 0)], 1⟩ anonNoTok).2 =
      ⟨[(1, 0)], 1⟩ ∧
    anonJoin 1 .netErr tgBad 0 ⟨[(1, 0)], 1⟩ anonTok = (.full, ⟨[(1, 0)], 1⟩) ∧
    join2 vTrue 1 tgBad 0 [("w", 0)] reqId0 = (.full, [("w", 0)]) :=
  ⟨c5_capacity_amended.1 1 [("w", 0)] reqId0,
   c5_capacity_amended.2.1 vTrue 1 tgOK 0 [("w", 0)] reqId0 (by decide),
   c5_capacity_amended.2.2.1 1 (.resp (some (some true))) tgOK 0 ⟨[(1, 0)], 1⟩
     anonNoTok (by decide),
   c5_capacity_amended.2.2.2.1 1 .netErr tgBad 0 ⟨[(1, 0)], 1⟩ anonTok
     (by decide) (by decide),
   c5_capacity_amended.2.2.2.2 vTrue 1 tgBad 0 [("w", 0)] reqId0 (by decide)
     (by decide) (by decide) (by decide) (by decide)⟩

/-- C7 counterexample: the claim asserts `remaining = max(0, MAX_SPOTS -
used)` for every store state of every `/spots` handler, in particular
that `remaining` is never negative. The FIRST identity variant computes
the raw difference without the clamp: with `MAX_SPOTS = 1` and two rows
it reports `remaining = -1`. -/
theorem c7_counterexample :
    (spots1 1 [("a", 0), ("b", 0)]).used = 2 ∧
    (spots1 1 [("a", 0), ("b", 0)]).remaining = -1 ∧
    ¬ (spots1 1 [("a", 0), ("b", 0)]).remaining =
        max 0 ((1 : Int) - ((spots1 1 [("a", 0), ("b", 0)]).used : Int)) := by
  decide

/-- C7 amended: the second identity variant and the anonymous server
satisfy `remaining = max(0, MAX_SPOTS - used)` (hence never negative)
for every store state; the first identity variant returns the raw
difference `MAX_SPOTS - used`, which agrees with the claim exactly when
`used ≤ MAX_SPOTS` and is negative beyond. -/
theorem c7_spots_amended :
    (∀ m (s : List Row), (spots2 m s).remaining =
        max 0 ((m : Int) - (s.length : Int)) ∧ 0 ≤ (spots2 m s).remaining) ∧
    (∀ m (s : AnonState), (spotsAnon m s).remaining =
        max 0 ((m : Int) - (s.rows.length : Int)) ∧
        0 ≤ (spotsAnon m s).remaining) ∧
    (∀ m (s : List Row), (spots1 m s).remaining = (m : Int) - (s.length : Int)) ∧
    (∀ m (s : List Row), s.length ≤ m →
      (spots1 m s).remaining = max 0 ((m : Int) - (s.length : Int))) ∧
    (∀ m (s : List Row), m < s.length → (spots1 m s).remaining < 0) := by
  refine ⟨?_, ?_, ?_, ?_, ?_⟩
  · intro m s
    exact ⟨rfl, le_max_left 0 _⟩
  · intro m s
    exact ⟨rfl, le_max_left 0 _⟩
  · intro m s
    rfl
  · intro m s h
    have : (0 : Int) ≤ (m : Int) - (s.length : Int) := by
      omega
    simp [spots1, max_eq_right this]
  · intro m s h
    simp [spots1]
    omega

theorem c7_spots_amended_witness :
    ((spots2 1 [("a", 0), ("b", 0)]).remaining =
        max 0 ((1 : Int) - (2 : Int)) ∧ 0 ≤ (spots2 1 [("a", 0), ("b", 0)]).remaining) ∧
    (spots1 2 [("a", 0)]).remaining = max 0 ((2 : Int) - (1 : Int)) ∧
    (spots1 1 [("a", 0), ("b", 0)]).remaining < 0 :=
  ⟨c7_spots_amended.1 1 [("a", 0), ("b", 0)],
   c7_spots_amended.2.2.2.1 2 [("a", 0)] (by decide),
   c7_spots_amended.2.2.2.2 1 [("a", 0), ("b", 0)] (by decide)⟩

/-- C8 counterexample: the claim says a signature supplied in the
`signatureBase58` field is decoded as base58. Take the wallet `wallet0`
(valid, 32 zero bytes) and the base58 text `sigB58`, whose BASE58
decoding is a 64-byte signature accepted by the Ed25519 oracle `vZeros`
over the fixed message under that key — per the claim, verification
succeeds, and with an empty store and a working issuer the request
succeeds. The handler instead decodes the text as BASE64 (48 bytes),
tweetnacl throws on the signature size, and the request is answered
500 — verification did not succeed on the base58 bytes. -/
theorem c8_counterexample :
    base58Decode sigB58 = some (List.replicate 64 0) ∧
    vZeros (utf8Bytes joinMessage) (List.replicate 64 0)
      (List.replicate 32 0) = true ∧
    pubkeyOfString wallet0 = some (List.replicate 32 0) ∧
    join2 vZeros 2 tgOK 0 [] reqId58 = (.serverError, []) ∧
    JoinResp.serverError.status = 500 := by decide

/-- C8 amended: the handler accepts the `signatureBase58` field name but
treats its value as BASE64 (`const signature = signatureBase64 ||
signatureBase58` is passed to `verifySignatureBase64`): the bytes handed
to `nacl.sign.detached.verify` are always the base64 decoding of the
supplied text, so verification succeeds exactly when the BASE64-decoded
bytes form a valid detached signature over the UTF-8 bytes of the fixed
message under the wallet's key; a failing verification yields 401, and a
text whose base64 decoding is not 64 bytes makes tweetnacl throw
(500). -/
theorem c8_base64_amended :
    (∀ v w sig pk, pubkeyOfString w = some pk →
      (base64Decode sig).length = 64 →
      verifySignatureBase64 v w joinMessage sig =
        some (v (utf8Bytes joinMessage) (base64Decode sig) pk)) ∧
    (∀ v m tg now s r,
      truthyOpt r.wallet = true → truthyOpt (sigField r) = true →
      verifySignatureBase64 v (r.wallet.getD "") joinMessage
        ((sigField r).getD "") = some false →
      join2 v m tg now s r = (.badSignature, s)) ∧
    (∀ v m tg now s r pk,
      truthyOpt r.wallet = true → truthyOpt (sigField r) = true →
      pubkeyOfString (r.wallet.getD "") = some pk →
      verifySignatureBase64 v (r.wallet.getD "") joinMessage
        ((sigField r).getD "") = none →
      join2 v m tg now s r = (.serverError, s)) ∧
    (∀ r, truthyOpt r.signatureBase64 = false → sigField r = r.signatureBase58) := by
  refine ⟨?_, ?_, ?_, ?_⟩
  · intro v w sig pk hpk hlen
    unfold verifySignatureBase64
    rw [hpk]
    simp [hlen]
  · intro v m tg now s r hb1 hb2 hv
    exact join2_badSignature v m tg now s r hb1 hb2 hv
  · intro v m tg now s r pk hb1 hb2 hpk hv
    exact join2_sigThrow v m tg now s r pk hb1 hb2 hpk hv
  · intro r h
    simp [sigField, h]

theorem c8_base64_amended_witness :
    verifySignatureBase64 vZeros wallet0 joinMessage sigB64 =
      some (vZeros (utf8Bytes joinMessage) (base64Decode sigB64)
        (List.replicate 32 0)) ∧
    join2 vZeros 2 tgOK 0 [] reqId58 = (.serverError, []) ∧
    sigField reqId58 = reqId58.signatureBase58 :=
  ⟨c8_base64_amended.1 vZeros wallet0 sigB64 (List.replicate 32 0)
    (by decide) (by decide),
   c8_base64_amended.2.2.1 vZeros 2 tgOK 0 [] reqId58 (List.replicate 32 0)
    (by decide) (by decide) (by decide) (by decide),
   c8_base64_amended.2.2.2 reqId58 (by decide)⟩

/-- A request passing all gates of the second identity variant with a
working invite issuer succeeds: the invite link is returned with the
remaining count computed from the pre-insert snapshot, and the row is
inserted. -/
theorem join2_success_run (v : VerifyFn) (m : Nat) (ok : Bool)
    (link : Option String) (now : Nat) (s : List Row) (r : JoinReq)
    (hb1 : truthyOpt r.wallet = true) (hb2 : truthyOpt (sigField r) = true)
    (hv : verifySignatureBase64 v (r.wallet.getD "") joinMessage
      ((sigField r).getD "") = some true)
    (hex : existsW (r.wallet.getD "") s = false)
    (hlen : s.length < m) (hts : tgSuccess ok link = true) :
    join2 v m (.data ok link) now s r =
      (.success (link.getD "") (m - (s.length + 1)),
        insertWallet (r.wallet.getD "") now s) := by
  obtain ⟨pk, hpk⟩ := verifySig_pk v _ _ _ _ hv
  have hnc : ¬ s.length ≥ m := by omega
  simp [join2, hb1, hb2, hpk, hv, hex, hnc, hts]

/-- C9 counterexample: the two identity variants are not behaviorally
equivalent. From the empty store, a request with a well-formed wallet, a
64-byte base64 signature and an accepting Ed25519 universe is answered
`500 Server error` with no store effect by the first variant (its
verification line reads the unbound identifier `message`), but succeeds
(200, row inserted) in the second variant. -/
theorem c9_counterexample :
    join1 2 [] reqId0 = (.serverError, []) ∧
    join2 vTrue 2 tgOK 7 [] reqId0 =
      (.success "https://t.me/+invite" 1, [(wallet0, 7)]) ∧
    JoinResp.serverError.status = 500 ∧
    (JoinResp.success "https://t.me/+invite" 1).status = 200 := by decide

/-- C9 amended: the two identity variants are not behaviorally
equivalent, but they do agree on part of the input space. They agree
(same response, no store effect) on requests rejected by input
validation — missing fields (400) and malformed wallet addresses
(400) — and also on some later paths, for example any request whose
signature text does not base64-decode to 64 bytes (both variants: 500,
no store effect). Every request with a well-formed wallet is answered
500 by the first variant with no store effect (its verification line
reads the unbound identifier `message`), so the variants differ
whenever the second variant leaves that envelope: a request passing
signature verification, the duplicate check and the capacity check with
a working issuer is answered 200 with a row inserted by the second
variant — a different status and a different store effect. The `/spots`
bodies agree exactly when `used ≤ MAX_SPOTS`; beyond capacity the first
variant's `remaining` drops below the second's clamped 0. -/
theorem c9_equivalence_amended :
    (∀ v m tg now s r, (truthyOpt r.wallet && truthyOpt (sigField r)) = false →
      join1 m s r = (.missingInput, s) ∧
      join2 v m tg now s r = (.missingInput, s)) ∧
    (∀ v m tg now s r, (truthyOpt r.wallet && truthyOpt (sigField r)) = true →
      pubkeyOfString (r.wallet.getD "") = none →
      join1 m s r = (.invalidWallet, s) ∧
      join2 v m tg now s r = (.invalidWallet, s)) ∧
    (∀ m s r pk, (truthyOpt r.wallet && truthyOpt (sigField r)) = true →
      pubkeyOfString (r.wallet.getD "") = some pk →
      join1 m s r = (.serverError, s)) ∧
    (∀ v m tg now s r pk,
      truthyOpt r.wallet = true → truthyOpt (sigField r) = true →
      pubkeyOfString (r.wallet.getD "") = some pk →
      verifySignatureBase64 v (r.wallet.getD "") joinMessage
        ((sigField r).getD "") = none →
      join1 m s r = (.serverError, s) ∧
      join2 v m tg now s r = (.serverError, s)) ∧
    (∀ v m ok link now s r,
      truthyOpt r.wallet = true → truthyOpt (sigField r) = true →
      verifySignatureBase64 v (r.wallet.getD "") joinMessage
        ((sigField r).getD "") = some true →
      existsW (r.wallet.getD "") s = false →
      s.length < m → tgSuccess ok link = true →
      join1 m s r = (.serverError, s) ∧
      join2 v m (.data ok link) now s r =
        (.success (link.getD "") (m - (s.length + 1)),
          insertWallet (r.wallet.getD "") now s) ∧
      (join1 m s r).1.status ≠ (join2 v m (.data ok link) now s r).1.status ∧
      (join1 m s r).2 ≠ (join2 v m (.data ok link) now s r).2) ∧
    (∀ m (s : List Row), s.length ≤ m → spots1 m s = spots2 m s) ∧
    (∀ m (s : List Row), m < s.length →
      (spots1 m s).remaining < (spots2 m s).remaining) := by
  refine ⟨?_, ?_, ?_, ?_, ?_, ?_, ?_⟩
  · intro v m tg now s r h
    constructor <;> simp [join1, join2, h]
  · intro v m tg now s r hb hpk
    constructor <;> simp [join1, join2, hb, hpk]
  · intro m s r pk hb hpk
    simp [join1, hb, hpk]
  · intro v m tg now s r pk hb1 hb2 hpk hv
    exact ⟨by simp [join1, hb1, hb2, hpk],
      join2_sigThrow v m tg now s r pk hb1 hb2 hpk hv⟩
  · intro v m ok link now s r hb1 hb2 hv hex hlen hts
    obtain ⟨pk, hpk⟩ := verifySig_pk v _ _ _ _ hv
    have h1 : join1 m s r = (.serverError, s) := by simp [join1, hb1, hb2, hpk]
    have h2 := join2_success_run v m ok link now s r hb1 hb2 hv hex hlen hts
    refine ⟨h1, h2, ?_, ?_⟩
    · rw [h1, h2]
      simp [JoinResp.status]
    · rw [h1, h2]
      intro he
      have hlen2 := congrArg List.length he
      simp [insertWallet] at hlen2
  · intro m s h
    have h0 : (0 : Int) ≤ (m : Int) - (s.length : Int) := by omega
    simp [spots1, spots2, max_eq_right h0]
  · intro m s h
    have h0 : max 0 ((m : Int) - (s.length : Int)) = 0 :=
      max_eq_left (by omega)
    simp [spots1, spots2, h0]
    omega

theorem c9_equivalence_amended_witness :
    (join1 3 [] ⟨some wallet0, none, none⟩ = (.missingInput, []) ∧
      join2 vTrue 3 tgOK 0 [] ⟨some wallet0, none, none⟩ = (.missingInput, [])) ∧
    (join1 3 [] ⟨some "bad", some sigB64, none⟩ = (.invalidWallet, []) ∧
      join2 vTrue 3 tgOK 0 [] ⟨some "bad", some sigB64, none⟩ =
        (.invalidWallet, [])) ∧
    join1 3 [] reqId0 = (.serverError, []) ∧
    (join1 3 [] ⟨some wallet0, some "A", none⟩ = (.serverError, []) ∧
      join2 vTrue 3 tgOK 0 [] ⟨some wallet0, some "A", none⟩ =
        (.serverError, [])) ∧
    (join1 2 [] reqId0 = (.serverError, []) ∧
      join2 vTrue 2 (.data true (some "https://t.me/+invite")) 7 [] reqId0 =
        (.success "https://t.me/+invite" 1, insertWallet wallet0 7 []) ∧
      (join1 2 [] reqId0).1.status ≠
        (join2 vTrue 2 (.data true (some "https://t.me/+invite")) 7 [] reqId0).1.status ∧
      (join1 2 [] reqId0).2 ≠
        (join2 vTrue 2 (.data true (some "https://t.me/+invite")) 7 [] reqId0).2) ∧
    spots1 2 [("a", 0)] = spots2 2 [("a", 0)] ∧
    (spots1 1 [("a", 0), ("b", 0)]).remaining <
      (spots2 1 [("a", 0), ("b", 0)]).remaining :=
  ⟨c9_equivalence_amended.1 vTrue 3 tgOK 0 [] ⟨some wallet0, none, none⟩
    (by decide),
   c9_equivalence_amended.2.1 vTrue 3 tgOK 0 [] ⟨some "bad", some sigB64, none⟩
    (by decide) (by decide),
   c9_equivalence_amended.2.2.1 3 [] reqId0 (List.replicate 32 0)
    (by decide) (by decide),
   c9_equivalence_amended.2.2.2.1 vTrue 3 tgOK 0 [] ⟨some wallet0, some "A", none⟩
    (List.replicate 32 0) (by decide) (by decide) (by decide) (by decide),
   c9_equivalence_amended.2.2.2.2.1 vTrue 2 true (some "https://t.me/+invite")
    7 [] reqId0 (by decide) (by decide) (by decide) (by decide) (by decide)
    (by decide),
   c9_equivalence_amended.2.2.2.2.2.1 2 [("a", 0)] (by decide),
   c9_equivalence_amended.2.2.2.2.2.2 1 [("a", 0), ("b", 0)] (by decide)⟩
